import Mathlib

/-!
Shallow embedding of `src/app.py`, a Streamlit task tracker backed by a
Google Sheet, together with proofs about its data-access and derived-field
logic.

Modelling conventions:
* An instant (a `datetime` / pandas `Timestamp`) is an integer number of
  seconds; a civil date (a `datetime.date`) is an integer day number.
  `pd.to_datetime` applied to a civil date yields that date's midnight,
  i.e. `day * 86400` seconds.
* Every spreadsheet cell is a `String`; the sheet is a list of rows
  (lists of cells), list index 0 being storage row 1 (the header row).
* `strftime` renderings of instants and dates are abstracted by the
  injective functions `fmtTimestamp` / `fmtDate`; no claim depends on the
  concrete format string.
-/

set_option autoImplicit false

namespace Tracker

/-- Seconds in one civil day. -/
def secondsPerDay : Int := 86400

/-- `pd.to_datetime` applied to a `datetime.date`: midnight of that day. -/
def dateToTimestamp (day : Int) : Int := day * secondsPerDay

/-- Rendering of an instant by `datetime.now().strftime("%Y-%m-%d %H:%M:%S")`,
abstracted as an injective rendering of the instant. -/
def fmtTimestamp (t : Int) : String := "T" ++ toString t

/-- Rendering of a date by `strftime("%Y-%m-%d")`, abstracted as an injective
rendering of the day number. -/
def fmtDate (day : Int) : String := "D" ++ toString day

/-- `app.py` lines 248 and 297:
`(pd.to_datetime(due_date) - pd.to_datetime(datetime.now())).days`.
A pandas `Timedelta`'s `.days` attribute is the floor of the total duration
in days (stdlib `timedelta` normalisation), so this is
`floor((dueMidnight - now) / 86400)`. -/
def daysToDueCalc (dueDay : Int) (now : Int) : Int :=
  Int.fdiv (dateToTimestamp dueDay - now) secondsPerDay

/-- `app.py` lines 249 and 298:
`"Yes" if status != "Completed" and pd.to_datetime(due_date) < pd.to_datetime(datetime.now()) else "No"`. -/
def overdueFlag (status : String) (dueDay : Int) (now : Int) : String :=
  if status ≠ "Completed" ∧ dateToTimestamp dueDay < now then "Yes" else "No"

/-- **Spec-side** definition for C2, from the spec's words:
`daysToDue = civilDayDifference(dueDate, now)`, the signed count of whole
civil days between the due date's day and `now`'s day. -/
def civilDayDifference (dueDay : Int) (now : Int) : Int :=
  dueDay - Int.fdiv now secondsPerDay

/-- `app.py` line 284: `f"REC_{len(df) + 1:04d}"`. The format spec `04d`
left-pads the decimal rendering with zeros to a width of 4. -/
def pyFormat04 (n : Nat) : String :=
  let s := Nat.repr n
  String.mk (List.replicate (4 - s.length) '0') ++ s

/-- `app.py` line 284: the identifier assigned to the appended record when the
loaded DataFrame currently has `dfLen` rows. -/
def new_record_id (dfLen : Nat) : String := "REC_" ++ pyFormat04 (dfLen + 1)

/-- One task record: the pandas `Series` built in the submit handlers
(`app.py` lines 236-254 and 285-303), in the fixed 17-column order A-Q. -/
structure Record where
  recordId : String
  clientName : String
  email : String
  phoneNo : String
  task : String
  phase : String
  status : String
  priority : String
  startDate : String
  dueDate : String
  followUpDate : String
  daysToDue : Int
  overdue : String
  notes : String
  lastUpdated : String
  driveLink : String
  paymentStatus : String
deriving Repr, DecidableEq

/-- `updated_data.values.tolist()` / `new_data.values.tolist()`: the record's
cells in Series insertion order, columns A (1st) through Q (17th). -/
def Record.toRow (r : Record) : List String :=
  [r.recordId, r.clientName, r.email, r.phoneNo, r.task, r.phase, r.status,
   r.priority, r.startDate, r.dueDate, r.followUpDate, toString r.daysToDue,
   r.overdue, r.notes, r.lastUpdated, r.driveLink, r.paymentStatus]

/-- The editable inputs of the `edit_task_form` (`app.py` lines 207-232).
The client-name input is disabled, so it is not part of the form state: its
submitted value is always the selected row's stored client name. Dates are
civil day numbers as returned by `st.date_input`. -/
structure EditForm where
  email : String
  phoneNo : String
  task : String
  phase : String
  status : String
  priority : String
  startDay : Int
  dueDay : Int
  followUpDay : Int
  paymentStatus : String
  driveLink : String
  notes : String
deriving Repr, DecidableEq

/-- The `updated_data` Series built on edit submit (`app.py` lines 236-254),
from the selected row `row_data` and the form inputs, at instant `now`. -/
def mkUpdatedData (row_data : Record) (f : EditForm) (now : Int) : Record :=
  { recordId := row_data.recordId
    clientName := row_data.clientName
    email := f.email
    phoneNo := f.phoneNo
    task := f.task
    phase := f.phase
    status := f.status
    priority := f.priority
    startDate := fmtDate f.startDay
    dueDate := fmtDate f.dueDay
    followUpDate := fmtDate f.followUpDay
    daysToDue := daysToDueCalc f.dueDay now
    overdue := overdueFlag f.status f.dueDay now
    notes := f.notes
    lastUpdated := fmtTimestamp now
    driveLink := f.driveLink
    paymentStatus := f.paymentStatus }

/-- The inputs of the `add_task_form` (`app.py` lines 261-277). The client
name comes from a selectbox over the loaded client names. -/
structure AddForm where
  client : String
  email : String
  phoneNo : String
  task : String
  phase : String
  status : String
  priority : String
  startDay : Int
  dueDay : Int
  followUpDay : Int
  paymentStatus : String
  driveLink : String
  notes : String
deriving Repr, DecidableEq

/-- The `new_data` Series built on add submit (`app.py` lines 284-303), when
the loaded DataFrame has `dfLen` rows, at instant `now`. -/
def mkNewData (dfLen : Nat) (f : AddForm) (now : Int) : Record :=
  { recordId := new_record_id dfLen
    clientName := f.client
    email := f.email
    phoneNo := f.phoneNo
    task := f.task
    phase := f.phase
    status := f.status
    priority := f.priority
    startDate := fmtDate f.startDay
    dueDate := fmtDate f.dueDay
    followUpDate := fmtDate f.followUpDay
    daysToDue := daysToDueCalc f.dueDay now
    overdue := overdueFlag f.status f.dueDay now
    notes := f.notes
    lastUpdated := fmtTimestamp now
    driveLink := f.driveLink
    paymentStatus := f.paymentStatus }

/-- The worksheet: a list of rows of cells; list index 0 is storage row 1
(the header row). -/
abbrev Sheet := List (List String)

/-- Overwrite one cell of a row; `c` is the 1-based column number. -/
def setCell (row : List String) (c : Nat) (v : String) : List String :=
  row.set (c - 1) v

/-- `sheet.update(f"A{r}:Q{r}", [vals])`: overwrite the cells of 1-based
storage row `r`. -/
def sheetUpdateRow (s : Sheet) (r : Nat) (vals : List String) : Sheet :=
  s.set (r - 1) vals

/-- `sheet.update_cell(r, c, v)`: overwrite the single cell at 1-based row
`r`, column `c`. -/
def sheetUpdateCell (s : Sheet) (r c : Nat) (v : String) : Sheet :=
  s.set (r - 1) (setCell ((s.getD (r - 1) [])) c v)

/-- `update_row` (`app.py` lines 124-135): bulk-write row
`A{row_index+2}:Q{row_index+2}` with the record's cells, then write
`datetime.now()` (taken inside `update_row`, modelled as `stamp`) into
column 15 of the same storage row. -/
def update_row (s : Sheet) (rowIndex : Nat) (updated : Record) (stamp : Int) : Sheet :=
  sheetUpdateCell (sheetUpdateRow s (rowIndex + 2) updated.toRow)
    (rowIndex + 2) 15 (fmtTimestamp stamp)

/-- `add_row` (`app.py` lines 138-148): `sheet.append_row(new_data.values.tolist())`. -/
def add_row (s : Sheet) (r : Record) : Sheet := s ++ [r.toRow]

/-- Outcome of the add-form submit handler. -/
inductive AddOutcome where
  | fieldError (msg : String)
  | added
deriving Repr, DecidableEq

/-- The add-form submit handler (`app.py` lines 280-306): `if not new_task`
report "Task/Project is required." and write nothing; otherwise build
`new_data` and append it. -/
def addSubmit (dfLen : Nat) (f : AddForm) (now : Int) (s : Sheet) :
    AddOutcome × Sheet :=
  if f.task = "" then (AddOutcome.fieldError "Task/Project is required.", s)
  else (AddOutcome.added, add_row s (mkNewData dfLen f now))

/-- A concrete add-form submission with an empty client name but a non-empty
task name. -/
def emptyClientForm : AddForm :=
  { client := "", email := "", phoneNo := "", task := "Resume Review",
    phase := "Profile Discovery", status := "Not Started", priority := "High",
    startDay := 0, dueDay := 0, followUpDay := 0, paymentStatus := "Pending",
    driveLink := "", notes := "" }

/-- A concrete add-form submission with an empty task name. -/
def emptyTaskForm : AddForm :=
  { client := "Alice", email := "", phoneNo := "", task := "",
    phase := "Profile Discovery", status := "Not Started", priority := "High",
    startDay := 0, dueDay := 0, followUpDay := 0, paymentStatus := "Pending",
    driveLink := "", notes := "" }

/-- A concrete stored record, used to instantiate edit-path theorems. -/
def sampleRecord : Record :=
  { recordId := "REC_0001", clientName := "Alice", email := "a@x.com",
    phoneNo := "555", task := "Resume Review", phase := "Applications",
    status := "In Progress", priority := "High", startDate := "D0",
    dueDate := "D3", followUpDate := "D4", daysToDue := 2, overdue := "Yes",
    notes := "", lastUpdated := "T0", driveLink := "", paymentStatus := "Pending" }

/-- A concrete edit-form submission. -/
def sampleEditForm : EditForm :=
  { email := "a@x.com", phoneNo := "555", task := "Resume Review v2",
    phase := "Applications", status := "Completed", priority := "Medium",
    startDay := 0, dueDay := 3, followUpDay := 4, paymentStatus := "Paid",
    driveLink := "", notes := "done" }

/-- A concrete three-row worksheet (header plus two data rows). -/
def sampleSheet : Sheet := [["hdr"], ["old1"], ["old2"]]

/-- The memo state of `@st.cache_data(ttl=60)` on `load_data`
(`app.py` lines 106-112): the fetch instant and the cached table, when a
cached entry exists. -/
abbrev CacheState := Option (Int × List Record)

/-- `load_data()` under the 60-unit TTL cache: a cached entry fetched at
`t0` is served while `t < t0 + 60`; otherwise the remote table (`remote`)
is fetched and cached. Returns the result, the new cache state, and
whether a remote read occurred. -/
def load_data_cached (remote : List Record) (t : Int) (c : CacheState) :
    List Record × CacheState × Bool :=
  match c with
  | some (t0, d) =>
      if t < t0 + 60 then (d, some (t0, d), false)
      else (remote, some (t, remote), true)
  | none => (remote, some (t, remote), true)

/-- `st.cache_data.clear()` (`app.py` lines 257 and 306), run synchronously
after every successful mutation. -/
def cache_clear (_ : CacheState) : CacheState := none

/-- The edit form's date-input default (`app.py` lines 218-229): a falsy
(empty) stored cell yields today's date without parsing; otherwise the cell
is parsed (`pd.to_datetime(...).date()`, abstracted as `parse`); a parse
failure is caught by the `except` arm, which also yields today. -/
def dateInputDefault (parse : String → Option Int) (stored : String) (today : Int) : Int :=
  if stored = "" then today
  else
    match parse stored with
    | some d => d
    | none => today

/-- The task selectbox label (`app.py` line 200):
`f"{row['Task/Project']} (Status: {row['Status']})"`. -/
def taskLabel (r : Record) : String := r.task ++ " (Status: " ++ r.status ++ ")"

/-- Python's `list.index`: the position of the first occurrence. -/
def listIndex (x : String) : List String → Option Nat
  | [] => none
  | y :: ys => if y = x then some 0 else (listIndex x ys).map (· + 1)

/-- The labels offered in the task selectbox for the selected client's rows,
each row paired with its DataFrame index (`app.py` line 200). -/
def task_options (rows : List (Nat × Record)) : List String :=
  rows.map (fun p => taskLabel p.2)

/-- Resolution of the selected label to the DataFrame row index
(`app.py` line 204): `client_df.index[task_options.index(selected_task)]`. -/
def resolveRowIndex (rows : List (Nat × Record)) (sel : String) : Option Nat :=
  (listIndex sel (task_options rows)).bind fun pos => (rows.get? pos).map Prod.fst

end Tracker

namespace Tracker

/-- The 15th cell (0-based index 14) of a record's row is its Last Updated
value. -/
theorem toRow_getD_lastUpdated (r : Record) : r.toRow.getD 14 "" = r.lastUpdated := rfl

/-- Overwriting column 15 of a record's row puts the new value in the 15th
cell. -/
theorem setCell_toRow_lastUpdated (r : Record) (v : String) :
    (setCell r.toRow 15 v).getD 14 "" = v := rfl

/-- C1: the overdue flag is "Yes" iff the status is not "Completed" and the
due date (its midnight instant) is strictly before the current instant at
the moment the write is issued; otherwise it is "No". -/
theorem overdue_flag_spec (status : String) (dueDay now : Int) :
    (overdueFlag status dueDay now = "Yes" ↔
      (status ≠ "Completed" ∧ dateToTimestamp dueDay < now)) ∧
    (overdueFlag status dueDay now = "No" ↔
      ¬(status ≠ "Completed" ∧ dateToTimestamp dueDay < now)) := by
  unfold overdueFlag
  by_cases h : status ≠ "Completed" ∧ dateToTimestamp dueDay < now
  · simp [h]
  · simp [h]

/-- C2 counterexample: with `now` one second after midnight of day 0
(`now = 1`), a due date on the very same civil day (day 0) yields
`daysToDue = -1`, not the claimed 0, and a due date three civil days after
`now` (day 3) yields `daysToDue = 2`, not the claimed 3. The claimed
civil-day difference gives 0 and 3 respectively. -/
theorem days_to_due_counterexample :
    daysToDueCalc 0 1 = -1 ∧ civilDayDifference 0 1 = 0 ∧
    daysToDueCalc 3 1 = 2 ∧ civilDayDifference 3 1 = 3 := by
  refine ⟨?_, ?_, ?_, ?_⟩ <;> decide

/-- C2 (amended): the stored days-to-due value is the floor of
(due-date midnight − now) in whole days: it is negative exactly when the
due date's midnight is strictly before now; it equals the civil-day
difference when the write occurs exactly at midnight, and the civil-day
difference minus one otherwise (so a due date three civil days ahead
yields 2 except at exact midnight). -/
theorem days_to_due_floor (d now : Int) :
    (daysToDueCalc d now < 0 ↔ dateToTimestamp d < now) ∧
    (now % 86400 = 0 → daysToDueCalc d now = civilDayDifference d now) ∧
    (now % 86400 ≠ 0 → daysToDueCalc d now = civilDayDifference d now - 1) := by
  unfold daysToDueCalc civilDayDifference dateToTimestamp secondsPerDay
  rw [Int.fdiv_eq_ediv _ (by norm_num), Int.fdiv_eq_ediv _ (by norm_num)]
  omega

/-- Witness for `days_to_due_floor` at due day 3, now = 1 second past
midnight of day 0. -/
theorem days_to_due_floor_witness :
    (1 : Int) % 86400 ≠ 0 ∧ daysToDueCalc 3 1 = civilDayDifference 3 1 - 1 :=
  ⟨by decide, (days_to_due_floor 3 1).2.2 (by decide)⟩

/-- C3: when the loaded table holds N-1 rows, the appended record is assigned
identifier "REC_" followed by N zero-padded to 4 digits (4 characters long
whenever N < 10000). -/
theorem record_id_assignment (N : Nat) (h : 0 < N) :
    new_record_id (N - 1) = "REC_" ++ pyFormat04 N ∧
    (N < 10000 → (pyFormat04 N).length = 4) := by
  constructor
  · unfold new_record_id
    rw [Nat.sub_add_cancel h]
  · intro hN
    have hlen : (Nat.repr N).length ≤ 4 := by
      refine Nat.repr_length N 4 (by norm_num) (by omega)
    unfold pyFormat04
    simp only [String.length_append]
    have hmk : (String.mk (List.replicate (4 - (Nat.repr N).length) '0')).length
        = 4 - (Nat.repr N).length := by
      show (List.replicate (4 - (Nat.repr N).length) '0').length = _
      simp
    rw [hmk]
    omega

/-- Witness for `record_id_assignment`: a 4-row table yields "REC_0005". -/
theorem record_id_assignment_witness :
    0 < 5 ∧ new_record_id 4 = "REC_" ++ pyFormat04 5 ∧ new_record_id 4 = "REC_0005" :=
  ⟨by decide, (record_id_assignment 5 (by decide)).1, by decide⟩

/-- C4 counterexample: an add submission with an empty client name and a
non-empty task name is not rejected — the handler appends the row and the
table grows, where the claim requires a field error and an unchanged table. -/
theorem add_client_not_validated :
    emptyClientForm.client = "" ∧
    (addSubmit 4 emptyClientForm 0 sampleSheet).1 = AddOutcome.added ∧
    (addSubmit 4 emptyClientForm 0 sampleSheet).2.length = sampleSheet.length + 1 := by
  refine ⟨rfl, rfl, rfl⟩

/-- C4 (amended): on Add submission only the task name is validated: if it is
empty the handler reports "Task/Project is required." and no append happens
(the sheet is unchanged); otherwise the row is appended. The client name is
not checked. -/
theorem add_validation_amended (dfLen : Nat) (f : AddForm) (now : Int) (s : Sheet) :
    (f.task = "" →
      addSubmit dfLen f now s = (AddOutcome.fieldError "Task/Project is required.", s)) ∧
    (f.task ≠ "" →
      addSubmit dfLen f now s = (AddOutcome.added, s ++ [(mkNewData dfLen f now).toRow])) := by
  unfold addSubmit add_row
  constructor <;> intro h <;> simp [h]

/-- Witness for `add_validation_amended`: the empty-task submission is
rejected with the field error and leaves the sheet unchanged. -/
theorem add_validation_amended_witness :
    emptyTaskForm.task = "" ∧
    addSubmit 4 emptyTaskForm 0 sampleSheet =
      (AddOutcome.fieldError "Task/Project is required.", sampleSheet) :=
  ⟨rfl, (add_validation_amended 4 emptyTaskForm 0 sampleSheet).1 rfl⟩

/-- C5: `update_row` keeps the table size, writes all 17 cells (columns A-Q)
of the single storage row at 1-based position `rowIndex + 2` (list index
`rowIndex + 1`), with column 15 then overwritten by the stamp time, and
leaves every other row unmodified. -/
theorem update_row_frame (s : Sheet) (rowIndex : Nat) (u : Record) (stamp : Int)
    (h : rowIndex + 2 ≤ s.length) :
    (update_row s rowIndex u stamp).length = s.length ∧
    u.toRow.length = 17 ∧
    (update_row s rowIndex u stamp)[rowIndex + 1]? =
      some (setCell u.toRow 15 (fmtTimestamp stamp)) ∧
    (∀ j, j ≠ rowIndex + 1 → (update_row s rowIndex u stamp)[j]? = s[j]?) := by
  have hlt : rowIndex + 1 < s.length := by omega
  have e : rowIndex + 2 - 1 = rowIndex + 1 := by omega
  unfold update_row sheetUpdateCell sheetUpdateRow
  rw [e]
  refine ⟨by simp, rfl, ?_, ?_⟩
  · rw [List.getElem?_set_self (by simpa using hlt)]
    have hrow : (s.set (rowIndex + 1) u.toRow).getD (rowIndex + 1) [] = u.toRow := by
      simp [List.getElem?_set_self hlt]
    rw [hrow]
  · intro j hj
    rw [List.getElem?_set_ne (fun hq => hj hq.symm),
      List.getElem?_set_ne (fun hq => hj hq.symm)]

/-- Witness for `update_row_frame` on a concrete three-row sheet at
`rowIndex = 0`. -/
theorem update_row_frame_witness :
    0 + 2 ≤ sampleSheet.length ∧
    (update_row sampleSheet 0 sampleRecord 7)[0 + 1]? =
      some (setCell sampleRecord.toRow 15 (fmtTimestamp 7)) ∧
    (update_row sampleSheet 0 sampleRecord 7)[2]? = sampleSheet[2]? :=
  ⟨by decide,
   (update_row_frame sampleSheet 0 sampleRecord 7 (by decide)).2.2.1,
   (update_row_frame sampleSheet 0 sampleRecord 7 (by decide)).2.2.2 2 (by decide)⟩

/-- C8: the edit handler carries the selected row's Record ID into the
written record unchanged, and likewise the client name (whose form input is
disabled). -/
theorem edit_preserves_record_id (row_data : Record) (f : EditForm) (now : Int) :
    (mkUpdatedData row_data f now).recordId = row_data.recordId ∧
    (mkUpdatedData row_data f now).clientName = row_data.clientName :=
  ⟨rfl, rfl⟩

/-- C10: after the bulk row write alone (before the separate stamp write),
the target row's 15th cell already holds the timestamp computed in the same
submit handler, so it never shows the pre-update timestamp alongside the
updated fields; the subsequent stamp write also writes a time taken during
the same call. -/
theorem bulk_write_fresh_timestamp (s : Sheet) (rowIndex : Nat) (row_data : Record)
    (f : EditForm) (now stamp : Int) (h : rowIndex + 2 ≤ s.length) :
    ((sheetUpdateRow s (rowIndex + 2) (mkUpdatedData row_data f now).toRow).getD
        (rowIndex + 1) []).getD 14 "" = fmtTimestamp now ∧
    (row_data.lastUpdated ≠ fmtTimestamp now →
      ((sheetUpdateRow s (rowIndex + 2) (mkUpdatedData row_data f now).toRow).getD
          (rowIndex + 1) []).getD 14 "" ≠ row_data.lastUpdated) ∧
    ((update_row s rowIndex (mkUpdatedData row_data f now) stamp).getD
        (rowIndex + 1) []).getD 14 "" = fmtTimestamp stamp := by
  have hlt : rowIndex + 1 < s.length := by omega
  have e : rowIndex + 2 - 1 = rowIndex + 1 := by omega
  unfold update_row sheetUpdateCell sheetUpdateRow
  rw [e]
  have hrow : (s.set (rowIndex + 1) (mkUpdatedData row_data f now).toRow).getD
      (rowIndex + 1) [] = (mkUpdatedData row_data f now).toRow := by
    simp [List.getElem?_set_self hlt]
  refine ⟨?_, ?_, ?_⟩
  · rw [hrow, toRow_getD_lastUpdated]
    rfl
  · intro hne
    rw [hrow, toRow_getD_lastUpdated]
    exact fun hq => hne hq.symm
  · rw [hrow, List.set_set]
    have hfinal : (s.set (rowIndex + 1)
        (setCell (mkUpdatedData row_data f now).toRow 15 (fmtTimestamp stamp))).getD
        (rowIndex + 1) [] =
        setCell (mkUpdatedData row_data f now).toRow 15 (fmtTimestamp stamp) := by
      simp [List.getElem?_set_self hlt]
    rw [hfinal, setCell_toRow_lastUpdated]

/-- Witness for `bulk_write_fresh_timestamp` on the concrete sheet at
`rowIndex = 0`, `now = 5`, `stamp = 7`: the intermediate row already shows
the fresh timestamp rather than the stored one. -/
theorem bulk_write_fresh_timestamp_witness :
    0 + 2 ≤ sampleSheet.length ∧ sampleRecord.lastUpdated ≠ fmtTimestamp 5 ∧
    ((sheetUpdateRow sampleSheet (0 + 2)
        (mkUpdatedData sampleRecord sampleEditForm 5).toRow).getD (0 + 1) []).getD 14 ""
      ≠ sampleRecord.lastUpdated :=
  ⟨by decide, by decide,
   (bulk_write_fresh_timestamp sampleSheet 0 sampleRecord sampleEditForm 5 7
      (by decide)).2.1 (by decide)⟩

/-- C6: starting from any cache state, if a `load()` at `t1` performed a
remote read then a second `load()` at `t2 < t1 + 60` with no intervening
mutation performs none and returns the same table (so the pair performs at
most one remote read); and a `load()` after `st.cache_data.clear()` — run
synchronously after every mutation — always performs a fresh remote read. -/
theorem cache_ttl_and_invalidation (remote : List Record) (t1 t2 t3 : Int)
    (c : CacheState) (h1 : t1 ≤ t2) (h12 : t2 < t1 + 60) :
    ((load_data_cached remote t1 c).2.2 = true →
      (load_data_cached remote t2 (load_data_cached remote t1 c).2.1).2.2 = false ∧
      (load_data_cached remote t2 (load_data_cached remote t1 c).2.1).1 =
        (load_data_cached remote t1 c).1) ∧
    ¬((load_data_cached remote t1 c).2.2 = true ∧
      (load_data_cached remote t2 (load_data_cached remote t1 c).2.1).2.2 = true) ∧
    (load_data_cached remote t3 (cache_clear c)).2.2 = true := by
  rcases c with _ | ⟨t0, d⟩
  · refine ⟨fun _ => ?_, ?_, rfl⟩
    · simp [load_data_cached, h12]
    · simp [load_data_cached, h12]
  · by_cases h0 : t1 < t0 + 60
    · refine ⟨fun hr => ?_, fun hr => ?_, rfl⟩
      · exact absurd hr (by simp [load_data_cached, h0])
      · exact absurd hr.1 (by simp [load_data_cached, h0])
    · refine ⟨fun _ => ?_, ?_, rfl⟩
      · simp [load_data_cached, h0, h12]
      · simp [load_data_cached, h0, h12]

/-- Witness for `cache_ttl_and_invalidation`: from an empty cache, a load at
0 fetches, a load at 30 is served from cache, and a load after a clear
fetches again. -/
theorem cache_ttl_and_invalidation_witness :
    (load_data_cached ([] : List Record) 30
        (load_data_cached [] 0 none).2.1).2.2 = false ∧
    (load_data_cached ([] : List Record) 90 (cache_clear none)).2.2 = true :=
  ⟨((cache_ttl_and_invalidation [] 0 30 90 none (by decide) (by decide)).1
      (by decide)).1,
   (cache_ttl_and_invalidation [] 0 30 90 none (by decide) (by decide)).2.2⟩

/-- C7: when populating the edit form, a date field defaults to today's date
whenever the stored value is empty or fails to parse, and otherwise it is
the parsed stored value — a parse failure never escapes as an error. -/
theorem date_default_policy (parse : String → Option Int) (stored : String) (today : Int) :
    ((stored = "" ∨ parse stored = none) →
      dateInputDefault parse stored today = today) ∧
    (dateInputDefault parse stored today = today ∨
      parse stored = some (dateInputDefault parse stored today)) := by
  refine ⟨fun h => ?_, ?_⟩
  · unfold dateInputDefault
    rcases h with h | h
    · simp [h]
    · by_cases hs : stored = ""
      · simp [hs]
      · simp [hs, h]
  · unfold dateInputDefault
    by_cases hs : stored = ""
    · simp [hs]
    · cases hp : parse stored
      · simp [hs, hp]
      · simp [hs, hp]

/-- Witness for `date_default_policy`: an unparseable stored value falls
back to today (= 7). -/
theorem date_default_policy_witness :
    dateInputDefault (fun _ => (none : Option Int)) "garbage" 7 = 7 :=
  (date_default_policy (fun _ => none) "garbage" 7).1 (Or.inr rfl)

/-- `listIndex` returns the position of the first occurrence: the element
there matches and no earlier element does. -/
theorem listIndex_first (x : String) (l : List String) (hx : x ∈ l) :
    ∃ k, ∃ hk : k < l.length, listIndex x l = some k ∧ l.get ⟨k, hk⟩ = x ∧
      ∀ m, ∀ hm : m < l.length, m < k → l.get ⟨m, hm⟩ ≠ x := by
  induction l with
  | nil => cases hx
  | cons y ys ih =>
    by_cases h : y = x
    · refine ⟨0, by simp, by simp [listIndex, h], by simpa using h, ?_⟩
      intro m hm hlt
      omega
    · have hx2 : x ∈ ys := by
        cases hx with
        | head => exact absurd rfl h
        | tail _ h2 => exact h2
      obtain ⟨k, hk, h1, h2, h3⟩ := ih hx2
      refine ⟨k + 1, by simpa using hk, ?_, by simpa using h2, ?_⟩
      · simp [listIndex, h, h1]
      · intro m hm hlt
        cases m with
        | zero => simpa using h
        | succ m2 =>
          have := h3 m2 (by simpa using hm) (by omega)
          simpa using this

/-- C9: if two of a client's rows at positions `i < j` carry the same
display label (task name and status), then selecting either label resolves
to the same DataFrame index — that of the first row carrying the label,
which sits at a position at most `i`; later duplicates are unreachable. -/
theorem duplicate_label_resolves_first (rows : List (Nat × Record)) (i j : Nat)
    (hi : i < rows.length) (hj : j < rows.length) (hij : i < j)
    (heq : taskLabel (rows.get ⟨i, hi⟩).2 = taskLabel (rows.get ⟨j, hj⟩).2) :
    resolveRowIndex rows (taskLabel (rows.get ⟨i, hi⟩).2) =
      resolveRowIndex rows (taskLabel (rows.get ⟨j, hj⟩).2) ∧
    ∃ k, ∃ hk : k < rows.length, k ≤ i ∧
      resolveRowIndex rows (taskLabel (rows.get ⟨j, hj⟩).2) =
        some (rows.get ⟨k, hk⟩).1 ∧
      taskLabel (rows.get ⟨k, hk⟩).2 = taskLabel (rows.get ⟨j, hj⟩).2 ∧
      ∀ m, ∀ hm : m < rows.length, m < k →
        taskLabel (rows.get ⟨m, hm⟩).2 ≠ taskLabel (rows.get ⟨j, hj⟩).2 := by
  refine ⟨by rw [heq], ?_⟩
  have hlen : (task_options rows).length = rows.length := by
    simp [task_options]
  have hget : ∀ m, ∀ hm : m < rows.length,
      (task_options rows).get ⟨m, by omega⟩ = taskLabel (rows.get ⟨m, hm⟩).2 := by
    intro m hm
    simp [task_options]
  have hmem : taskLabel (rows.get ⟨j, hj⟩).2 ∈ task_options rows := by
    have := hget j hj
    rw [← this]
    exact List.get_mem _ _ _
  obtain ⟨k, hk, h1, h2, h3⟩ := listIndex_first _ _ hmem
  have hkr : k < rows.length := by omega
  refine ⟨k, hkr, ?_, ?_, ?_, ?_⟩
  · by_contra hik
    have hik2 : i < k := by omega
    exact h3 i (by omega) hik2 (by rw [hget i (by omega)]; exact heq)
  · unfold resolveRowIndex
    rw [h1]
    show (rows.get? k).map Prod.fst = some (rows.get ⟨k, hkr⟩).1
    rw [List.get?_eq_get hkr]
    rfl
  · rw [← hget k hkr]
    exact h2
  · intro m hm hmk
    intro hcon
    exact h3 m (by omega) hmk (by rw [hget m (by omega)]; exact hcon)

/-- Witness for `duplicate_label_resolves_first`: two rows with identical
task and status but DataFrame indices 10 and 20; selecting the second row's
label resolves to index 10. -/
theorem duplicate_label_resolves_first_witness :
    resolveRowIndex [(10, sampleRecord), (20, sampleRecord)]
      (taskLabel ((([(10, sampleRecord), (20, sampleRecord)] :
        List (Nat × Record)).get ⟨1, by decide⟩)).2) = some 10 := by
  obtain ⟨heq2, k, hk, hki, hres, hlab, hfirst⟩ :=
    duplicate_label_resolves_first [(10, sampleRecord), (20, sampleRecord)] 0 1
      (by decide) (by decide) (by decide) rfl
  have hk0 : k = 0 := by omega
  subst hk0
  exact hres

end Tracker
